import Mathlib

/-!
Verification of the congestion-simulation core of the network analyzer
(`projects/projects/analyzer/script.js`).

The shallow embedding below translates the simulation engine:
* `simulateNetworkTraffic` (script.js lines 185-234): one tick of the
  discrete-time simulation, updating cumulative counters, the TCP window and
  the bounded chart buffers.  JavaScript numbers are modelled as exact
  integers (`ℤ`/`ℕ`) and the two divisions (`overload / sendingRate` and the
  literal `0.7`) as rationals, with `Math.floor` as `Int.floor`.
* the status computation of `updateNetworkVisualization` (lines 252-279),
  called `classify` as in the specification.
* the lifecycle functions `startSimulation` / `pauseSimulation` /
  `resetSimulation` / `resetNetworkStats` (lines 137-172).  `setInterval` /
  `clearInterval` scheduling is modelled by the `isSimulationRunning` flag:
  ticks are explicit applications of `simulateNetworkTraffic`.
* the two configuration input listeners (lines 32-43), which assign the
  parsed integer to the corresponding global without any validation.

The wall-clock timestamp string pushed into `chartData.time` is abstracted as
a natural-number tick label: no claim depends on its value, only on the
length of the `time` list (which gates the `shift()` eviction).
-/

namespace Analyzer

/-- Transport protocol selected by the UI (`currentProtocol` is the string
`tcp` or `udp` in the source). -/
inductive Protocol
  | tcp
  | udp
deriving DecidableEq

/-- The configuration globals of script.js: `packetRate`, `networkCapacity`
(ints set by the sliders) and `currentProtocol`. -/
structure Config where
  packetRate : ℕ
  networkCapacity : ℕ
  protocol : Protocol
deriving DecidableEq

/-- The mutable simulation globals of script.js: the cumulative counters
`sentPackets`, `deliveredPackets`, `droppedPackets`, the TCP window
`tcpWindowSize`, the `isSimulationRunning` flag and the three parallel
`chartData` arrays. -/
structure SimState where
  sentPackets : ℤ
  deliveredPackets : ℤ
  droppedPackets : ℤ
  tcpWindowSize : ℕ
  isSimulationRunning : Bool
  chartTime : List ℕ
  chartThroughput : List ℤ
  chartLoss : List ℤ
deriving DecidableEq

/-- Initial values of the globals (script.js lines 5-22): all counters zero,
`tcpWindowSize = 1`, not running, empty chart arrays. -/
def initialState : SimState :=
  { sentPackets := 0
    deliveredPackets := 0
    droppedPackets := 0
    tcpWindowSize := 1
    isSimulationRunning := false
    chartTime := []
    chartThroughput := []
    chartLoss := [] }

/-- The per-tick sending rate (script.js lines 189-190):
`currentProtocol === 'tcp' ? Math.min(packetRate, tcpWindowSize) : packetRate`. -/
def sendingRate (cfg : Config) (w : ℕ) : ℕ :=
  if cfg.protocol = Protocol.tcp then min cfg.packetRate w else cfg.packetRate

/-- The chart-data update at the end of a tick (script.js lines 223-233):
push the current time label, `deliveredPackets` minus the last throughput
sample (`|| 0` when the array is empty), and cumulative `droppedPackets`;
then if `chartData.time.length > 8`, `shift()` the oldest entry off all
three arrays. -/
def pushChart (t : ℕ) (s : SimState) : SimState :=
  let tp : ℤ := s.deliveredPackets - (s.chartThroughput.getLast?.getD 0)
  let time' := s.chartTime ++ [t]
  let thr' := s.chartThroughput ++ [tp]
  let loss' := s.chartLoss ++ [s.droppedPackets]
  if 8 < time'.length then
    { s with chartTime := time'.drop 1
             chartThroughput := thr'.drop 1
             chartLoss := loss'.drop 1 }
  else
    { s with chartTime := time'
             chartThroughput := thr'
             chartLoss := loss' }

/-- One tick of the simulation, `simulateNetworkTraffic` (script.js lines
185-234).  `Math.max(0, sendingRate - networkCapacity)` is the truncated
natural subtraction; the congestion branch computes
`dropRate = overload / sendingRate`,
`delivered = Math.floor(sendingRate * (1 - dropRate))`,
`dropped = sendingRate - delivered`, and for TCP
`tcpWindowSize = Math.max(1, Math.floor(tcpWindowSize * 0.7))`; the normal
branch delivers everything and for TCP grows the window by
`Math.min(packetRate, tcpWindowSize + 1)`. -/
def simulateNetworkTraffic (cfg : Config) (t : ℕ) (s : SimState) : SimState :=
  let r := sendingRate cfg s.tcpWindowSize
  let s1 := { s with sentPackets := s.sentPackets + (r : ℤ) }
  let overload : ℕ := r - cfg.networkCapacity
  if 0 < overload then
    let dropRate : ℚ := (overload : ℚ) / (r : ℚ)
    let delivered : ℤ := ⌊(r : ℚ) * (1 - dropRate)⌋
    let dropped : ℤ := (r : ℤ) - delivered
    pushChart t
      { s1 with deliveredPackets := s1.deliveredPackets + delivered
                droppedPackets := s1.droppedPackets + dropped
                tcpWindowSize :=
                  if cfg.protocol = Protocol.tcp then
                    max 1 (⌊(s.tcpWindowSize : ℚ) * (7 / 10)⌋).toNat
                  else s.tcpWindowSize }
  else
    pushChart t
      { s1 with deliveredPackets := s1.deliveredPackets + (r : ℤ)
                tcpWindowSize :=
                  if cfg.protocol = Protocol.tcp then
                    min cfg.packetRate (s.tcpWindowSize + 1)
                  else s.tcpWindowSize }

/-- The state after `n` ticks from the initial globals, tick `k` carrying
time label `k`. -/
def runTicks (cfg : Config) : ℕ → SimState
  | 0 => initialState
  | n + 1 => simulateNetworkTraffic cfg n (runTicks cfg n)

/-- The state after `n` ticks from an arbitrary starting state `s`, tick `k`
carrying time label `k` (used to reason about runs that continue from a
reached state). -/
def runFrom (cfg : Config) (s : SimState) : ℕ → SimState
  | 0 => s
  | n + 1 => simulateNetworkTraffic cfg n (runFrom cfg s n)

/-- Tri-state network status shown by `updateNetworkVisualization`. -/
inductive Status
  | normal
  | warning
  | congested
deriving DecidableEq

/-- The status computation of `updateNetworkVisualization` (script.js lines
252-279): `utilization = packetRate / networkCapacity * 100`, status Normal
when `utilization < 60`, Warning when `utilization < 85`, else Congested.
When `networkCapacity = 0`, JavaScript division yields `-Infinity` for a
negative rate (so `utilization < 60` holds and the status is Normal) and
`Infinity` for a positive rate (or `NaN` for `0/0`), for which both `< 60`
and `< 85` are false, so the status is Congested; that case is made explicit
here because rational division by zero would otherwise yield 0. -/
def classify (packetRate networkCapacity : ℤ) : Status :=
  if networkCapacity = 0 then
    if packetRate < 0 then Status.normal else Status.congested
  else
    let utilization : ℚ := (packetRate : ℚ) / (networkCapacity : ℚ) * 100
    if utilization < 60 then Status.normal
    else if utilization < 85 then Status.warning
    else Status.congested

/-- `resetNetworkStats` (script.js lines 166-172): zero the counters, reset
the window to 1 and clear the chart arrays. -/
def resetNetworkStats (s : SimState) : SimState :=
  { s with sentPackets := 0
           deliveredPackets := 0
           droppedPackets := 0
           tcpWindowSize := 1
           chartTime := []
           chartThroughput := []
           chartLoss := [] }

/-- `startSimulation` (script.js lines 137-150): a no-op while already
running; otherwise it sets the running flag, calls `resetNetworkStats()` and
installs the tick interval. -/
def startSimulation (s : SimState) : SimState :=
  if s.isSimulationRunning then s
  else resetNetworkStats { s with isSimulationRunning := true }

/-- `pauseSimulation` (script.js lines 152-155): clear the running flag and
cancel the tick interval (so no further ticks fire); all other globals are
untouched. -/
def pauseSimulation (s : SimState) : SimState :=
  { s with isSimulationRunning := false }

/-- `resetSimulation` (script.js lines 157-164): pause, then reset the
stats (the remaining calls only redraw the UI). -/
def resetSimulation (s : SimState) : SimState :=
  resetNetworkStats (pauseSimulation s)

/-- The slider-configuration globals written by `initializeEventListeners`
(script.js lines 32-43); `parseInt` results are modelled as integers. -/
structure InputConfig where
  packetRate : ℤ
  networkCapacity : ℤ
deriving DecidableEq

/-- The `packetRate` input listener (script.js lines 33-37): assigns the
parsed value to the global unconditionally. -/
def packetRateInput (v : ℤ) (c : InputConfig) : InputConfig :=
  { c with packetRate := v }

/-- The `networkCapacity` input listener (script.js lines 39-42): assigns
the parsed value to the global unconditionally. -/
def networkCapacityInput (v : ℤ) (c : InputConfig) : InputConfig :=
  { c with networkCapacity := v }

/-- The per-list buffer operation embodied in the chart update (script.js
lines 224-233): append the new sample, then drop the oldest entry when the
length exceeds 8. -/
def chartPush (l : List ℤ) (x : ℤ) : List ℤ :=
  let l' := l ++ [x]
  if 8 < l'.length then l'.drop 1 else l'

-- Scratch sanity checks of the embedding on concrete runs.
example : (runTicks ⟨10, 15, Protocol.udp⟩ 3).chartThroughput = [10, 10, 20] := by decide
example : (runTicks ⟨10, 15, Protocol.tcp⟩ 3).tcpWindowSize = 4 := by decide
example : classify 59 100 = Status.normal := by norm_num [classify]
example : classify 85 100 = Status.congested := by norm_num [classify]
example : classify 5 0 = Status.congested := by decide

/-! ### Helper lemmas about the tick function -/

lemma pushChart_sentPackets (t : ℕ) (s : SimState) :
    (pushChart t s).sentPackets = s.sentPackets := by
  simp only [pushChart]
  split <;> rfl

lemma pushChart_deliveredPackets (t : ℕ) (s : SimState) :
    (pushChart t s).deliveredPackets = s.deliveredPackets := by
  simp only [pushChart]
  split <;> rfl

lemma pushChart_droppedPackets (t : ℕ) (s : SimState) :
    (pushChart t s).droppedPackets = s.droppedPackets := by
  simp only [pushChart]
  split <;> rfl

lemma pushChart_tcpWindowSize (t : ℕ) (s : SimState) :
    (pushChart t s).tcpWindowSize = s.tcpWindowSize := by
  simp only [pushChart]
  split <;> rfl

lemma pushChart_isSimulationRunning (t : ℕ) (s : SimState) :
    (pushChart t s).isSimulationRunning = s.isSimulationRunning := by
  simp only [pushChart]
  split <;> rfl

/-- Each tick adds `sendingRate` to the sent counter, and together exactly
`sendingRate` to the delivered and dropped counters. -/
lemma tick_counters (cfg : Config) (t : ℕ) (s : SimState) :
    (simulateNetworkTraffic cfg t s).sentPackets
        = s.sentPackets + (sendingRate cfg s.tcpWindowSize : ℤ) ∧
      (simulateNetworkTraffic cfg t s).deliveredPackets
          + (simulateNetworkTraffic cfg t s).droppedPackets
        = s.deliveredPackets + s.droppedPackets
            + (sendingRate cfg s.tcpWindowSize : ℤ) := by
  simp only [simulateNetworkTraffic]
  by_cases hov : 0 < sendingRate cfg s.tcpWindowSize - cfg.networkCapacity <;>
    simp [hov, pushChart_sentPackets, pushChart_deliveredPackets,
      pushChart_droppedPackets] <;>
    ring

/-- Branch characterization of the tick when the sending rate exceeds
capacity (the congestion branch of `simulateNetworkTraffic`). -/
lemma tick_overload (cfg : Config) (t : ℕ) (s : SimState)
    (h : cfg.networkCapacity < sendingRate cfg s.tcpWindowSize) :
    (simulateNetworkTraffic cfg t s).sentPackets
        = s.sentPackets + (sendingRate cfg s.tcpWindowSize : ℤ) ∧
      (simulateNetworkTraffic cfg t s).deliveredPackets
        = s.deliveredPackets
            + ⌊(sendingRate cfg s.tcpWindowSize : ℚ)
                * (1 - ((sendingRate cfg s.tcpWindowSize
                          - cfg.networkCapacity : ℕ) : ℚ)
                        / (sendingRate cfg s.tcpWindowSize : ℚ))⌋ ∧
      (simulateNetworkTraffic cfg t s).droppedPackets
        = s.droppedPackets
            + ((sendingRate cfg s.tcpWindowSize : ℤ)
                - ⌊(sendingRate cfg s.tcpWindowSize : ℚ)
                    * (1 - ((sendingRate cfg s.tcpWindowSize
                              - cfg.networkCapacity : ℕ) : ℚ)
                            / (sendingRate cfg s.tcpWindowSize : ℚ))⌋) ∧
      (simulateNetworkTraffic cfg t s).tcpWindowSize
        = (if cfg.protocol = Protocol.tcp then
            max 1 (⌊(s.tcpWindowSize : ℚ) * (7 / 10)⌋).toNat
          else s.tcpWindowSize) := by
  have hov : 0 < sendingRate cfg s.tcpWindowSize - cfg.networkCapacity := by omega
  simp only [simulateNetworkTraffic]
  simp [hov, pushChart_sentPackets, pushChart_deliveredPackets,
    pushChart_droppedPackets, pushChart_tcpWindowSize]

/-- Branch characterization of the tick when the sending rate is within
capacity (the normal branch of `simulateNetworkTraffic`). -/
lemma tick_no_overload (cfg : Config) (t : ℕ) (s : SimState)
    (h : sendingRate cfg s.tcpWindowSize ≤ cfg.networkCapacity) :
    (simulateNetworkTraffic cfg t s).sentPackets
        = s.sentPackets + (sendingRate cfg s.tcpWindowSize : ℤ) ∧
      (simulateNetworkTraffic cfg t s).deliveredPackets
        = s.deliveredPackets + (sendingRate cfg s.tcpWindowSize : ℤ) ∧
      (simulateNetworkTraffic cfg t s).droppedPackets = s.droppedPackets ∧
      (simulateNetworkTraffic cfg t s).tcpWindowSize
        = (if cfg.protocol = Protocol.tcp then
            min cfg.packetRate (s.tcpWindowSize + 1)
          else s.tcpWindowSize) := by
  have hov : ¬ 0 < sendingRate cfg s.tcpWindowSize - cfg.networkCapacity := by omega
  simp only [simulateNetworkTraffic]
  simp [hov, pushChart_sentPackets, pushChart_deliveredPackets,
    pushChart_droppedPackets, pushChart_tcpWindowSize]

/-- The TCP backoff `Math.max(1, Math.floor(w * 0.7))` never exceeds `w`
(for `w ≥ 1`), since `0.7 ≤ 1`. -/
lemma backoff_le (w : ℕ) : (⌊(w : ℚ) * (7 / 10)⌋).toNat ≤ w := by
  rw [Int.toNat_le]
  calc ⌊(w : ℚ) * (7 / 10)⌋ ≤ ⌊(w : ℚ)⌋ := by
        apply Int.floor_mono
        exact mul_le_of_le_one_right (Nat.cast_nonneg w) (by norm_num)
    _ = (w : ℤ) := Int.floor_natCast w

/-! ### Claim theorems -/

/-- Claim C1: counter conservation.  Every tick adds `sendingRate` to the
sent counter and amounts summing to `sendingRate` to the delivered and
dropped counters, and for every state reachable by ticks from the initial
state, `deliveredTotal + droppedTotal = sentTotal`. -/
theorem counter_conservation :
    (∀ (cfg : Config) (t : ℕ) (s : SimState),
        (simulateNetworkTraffic cfg t s).sentPackets
            = s.sentPackets + (sendingRate cfg s.tcpWindowSize : ℤ) ∧
          (simulateNetworkTraffic cfg t s).deliveredPackets
              + (simulateNetworkTraffic cfg t s).droppedPackets
            = s.deliveredPackets + s.droppedPackets
                + (sendingRate cfg s.tcpWindowSize : ℤ)) ∧
      ∀ (cfg : Config) (n : ℕ),
        (runTicks cfg n).deliveredPackets + (runTicks cfg n).droppedPackets
          = (runTicks cfg n).sentPackets := by
  refine ⟨fun cfg t s => tick_counters cfg t s, fun cfg n => ?_⟩
  induction n with
  | zero => rfl
  | succ n ih =>
    rw [runTicks]
    have h := tick_counters cfg n (runTicks cfg n)
    omega

/-- Claim C2: TCP window bounds.  With protocol TCP and `packetRate ≥ 1`,
after every number of ticks from the initial state (`windowSize = 1`) the
window satisfies `1 ≤ windowSize ≤ packetRate`. -/
theorem tcp_window_bounds (cfg : Config) (hp : cfg.protocol = Protocol.tcp)
    (hr : 1 ≤ cfg.packetRate) (n : ℕ) :
    1 ≤ (runTicks cfg n).tcpWindowSize ∧
      (runTicks cfg n).tcpWindowSize ≤ cfg.packetRate := by
  induction n with
  | zero => exact ⟨le_refl 1, hr⟩
  | succ n ih =>
    rw [runTicks]
    by_cases hov :
        sendingRate cfg (runTicks cfg n).tcpWindowSize ≤ cfg.networkCapacity
    · have h := (tick_no_overload cfg n (runTicks cfg n) hov).2.2.2
      rw [h, if_pos hp]
      omega
    · have h := (tick_overload cfg n (runTicks cfg n) (by omega)).2.2.2
      rw [h, if_pos hp]
      have hb := backoff_le (runTicks cfg n).tcpWindowSize
      omega

/-- Witness for C2 at the concrete configuration
`packetRate = 10, networkCapacity = 15, protocol = TCP`, after 3 ticks. -/
theorem tcp_window_bounds_witness :
    1 ≤ (runTicks ⟨10, 15, Protocol.tcp⟩ 3).tcpWindowSize ∧
      (runTicks ⟨10, 15, Protocol.tcp⟩ 3).tcpWindowSize ≤ 10 :=
  tcp_window_bounds ⟨10, 15, Protocol.tcp⟩ rfl (by norm_num) 3

/-- Claim C3: on a tick whose sending rate exceeds capacity, the congestion
branch computes `delivered = floor(sendingRate * (1 - overload/sendingRate))`
added to the delivered counter, `dropped = sendingRate - delivered` added to
the dropped counter, and under TCP the new window is
`max(1, floor(windowSize * 0.7))`; in particular an overload tick from
`windowSize = 10` yields a new window of 7. -/
theorem overload_branch (cfg : Config) (t : ℕ) (s : SimState)
    (h : cfg.networkCapacity < sendingRate cfg s.tcpWindowSize) :
    ((simulateNetworkTraffic cfg t s).deliveredPackets
        = s.deliveredPackets
            + ⌊(sendingRate cfg s.tcpWindowSize : ℚ)
                * (1 - ((sendingRate cfg s.tcpWindowSize
                          - cfg.networkCapacity : ℕ) : ℚ)
                        / (sendingRate cfg s.tcpWindowSize : ℚ))⌋ ∧
      (simulateNetworkTraffic cfg t s).droppedPackets
        = s.droppedPackets
            + ((sendingRate cfg s.tcpWindowSize : ℤ)
                - ⌊(sendingRate cfg s.tcpWindowSize : ℚ)
                    * (1 - ((sendingRate cfg s.tcpWindowSize
                              - cfg.networkCapacity : ℕ) : ℚ)
                            / (sendingRate cfg s.tcpWindowSize : ℚ))⌋) ∧
      (cfg.protocol = Protocol.tcp →
        (simulateNetworkTraffic cfg t s).tcpWindowSize
          = max 1 (⌊(s.tcpWindowSize : ℚ) * (7 / 10)⌋).toNat)) ∧
    (simulateNetworkTraffic ⟨20, 5, Protocol.tcp⟩ 0
        { initialState with tcpWindowSize := 10 }).tcpWindowSize = 7 := by
  have hm := tick_overload cfg t s h
  refine ⟨⟨hm.2.1, hm.2.2.1, fun hp => by rw [hm.2.2.2, if_pos hp]⟩, ?_⟩
  have hc := (tick_overload ⟨20, 5, Protocol.tcp⟩ 0
    { initialState with tcpWindowSize := 10 } (by decide)).2.2.2
  rw [hc]
  norm_num
  decide

/-- Witness for C3 at the concrete configuration
`packetRate = 20, networkCapacity = 5, protocol = TCP` with window 10 (the
sending rate is `min 20 10 = 10 > 5`). -/
theorem overload_branch_witness :
    (5 : ℕ) < sendingRate ⟨20, 5, Protocol.tcp⟩ 10 ∧
      (simulateNetworkTraffic ⟨20, 5, Protocol.tcp⟩ 0
          { initialState with tcpWindowSize := 10 }).tcpWindowSize = 7 :=
  ⟨by decide,
    (overload_branch ⟨20, 5, Protocol.tcp⟩ 0
      { initialState with tcpWindowSize := 10 } (by decide)).2⟩

/-- Claim C4: on every no-overload tick — whatever the protocol — the full
sending rate is delivered and nothing is dropped, and under TCP the window
becomes `min(packetRate, windowSize + 1)`; consequently, under TCP, over `N`
consecutive no-overload ticks from a window `w0 ≤ packetRate` the window
after `k` ticks is `min packetRate (w0 + k)` — it grows by exactly 1 per
tick while below `packetRate` and is clamped there. -/
theorem no_overload_branch (cfg : Config) (s : SimState) (N : ℕ)
    (hp : cfg.protocol = Protocol.tcp)
    (hw0 : s.tcpWindowSize ≤ cfg.packetRate)
    (hN : ∀ k < N,
      sendingRate cfg (runFrom cfg s k).tcpWindowSize ≤ cfg.networkCapacity) :
    (∀ (cfg' : Config) (t : ℕ) (s' : SimState),
        sendingRate cfg' s'.tcpWindowSize ≤ cfg'.networkCapacity →
          (simulateNetworkTraffic cfg' t s').deliveredPackets
              = s'.deliveredPackets
                  + (sendingRate cfg' s'.tcpWindowSize : ℤ) ∧
            (simulateNetworkTraffic cfg' t s').droppedPackets
              = s'.droppedPackets ∧
            (cfg'.protocol = Protocol.tcp →
              (simulateNetworkTraffic cfg' t s').tcpWindowSize
                = min cfg'.packetRate (s'.tcpWindowSize + 1))) ∧
      (∀ k < N,
        (runFrom cfg s (k + 1)).deliveredPackets
            = (runFrom cfg s k).deliveredPackets
                + (sendingRate cfg (runFrom cfg s k).tcpWindowSize : ℤ) ∧
          (runFrom cfg s (k + 1)).droppedPackets
            = (runFrom cfg s k).droppedPackets) ∧
      (∀ k ≤ N,
        (runFrom cfg s k).tcpWindowSize
          = min cfg.packetRate (s.tcpWindowSize + k)) ∧
      (∀ k < N, s.tcpWindowSize + k < cfg.packetRate →
        (runFrom cfg s (k + 1)).tcpWindowSize
          = (runFrom cfg s k).tcpWindowSize + 1) := by
  have hwin : ∀ k, k ≤ N →
      (runFrom cfg s k).tcpWindowSize
        = min cfg.packetRate (s.tcpWindowSize + k) := by
    intro k
    induction k with
    | zero =>
      intro _
      simp only [runFrom]
      omega
    | succ k ih =>
      intro hk
      rw [runFrom]
      have h := (tick_no_overload cfg k (runFrom cfg s k)
        (hN k (by omega))).2.2.2
      rw [h, if_pos hp, ih (by omega)]
      omega
  refine ⟨?_, ?_, fun k hk => hwin k hk, ?_⟩
  · intro cfg' t s' hle
    have h := tick_no_overload cfg' t s' hle
    exact ⟨h.2.1, h.2.2.1, fun hp' => by rw [h.2.2.2, if_pos hp']⟩
  · intro k hk
    have h := tick_no_overload cfg k (runFrom cfg s k) (hN k hk)
    exact ⟨h.2.1, h.2.2.1⟩
  · intro k hk hlt
    have h1 := hwin (k + 1) (by omega)
    have h2 := hwin k (by omega)
    omega

/-- Witness for C4: `packetRate = 10, networkCapacity = 15, protocol = TCP`
never overloads; after 3 ticks from the initial window 1 the window is 4;
and a concrete UDP no-overload tick (rate 10 ≤ capacity 15) drops nothing. -/
theorem no_overload_branch_witness :
    (runFrom ⟨10, 15, Protocol.tcp⟩ initialState 3).tcpWindowSize = 4 ∧
      (simulateNetworkTraffic ⟨10, 15, Protocol.udp⟩ 0
          initialState).droppedPackets = 0 := by
  have h := no_overload_branch ⟨10, 15, Protocol.tcp⟩ initialState 3 rfl
    (by decide) (by decide)
  constructor
  · have h1 := h.2.2.1 3 (by omega)
    simpa [initialState] using h1
  · have h2 := (h.1 ⟨10, 15, Protocol.udp⟩ 0 initialState (by decide)).2.1
    simpa [initialState] using h2

/-- Claim C5: the status thresholds of `updateNetworkVisualization`.  For
`networkCapacity ≥ 1` and `utilization = packetRate / networkCapacity * 100`,
the status is Normal when `utilization < 60`, Warning when
`60 ≤ utilization < 85`, and Congested when `utilization ≥ 85`; together
with the four boundary instances from the specification. -/
theorem classify_thresholds (pr cap : ℤ) (hcap : 1 ≤ cap) :
    ((pr : ℚ) / (cap : ℚ) * 100 < 60 → classify pr cap = Status.normal) ∧
      (60 ≤ (pr : ℚ) / (cap : ℚ) * 100 →
        (pr : ℚ) / (cap : ℚ) * 100 < 85 → classify pr cap = Status.warning) ∧
      (85 ≤ (pr : ℚ) / (cap : ℚ) * 100 → classify pr cap = Status.congested) ∧
      classify 59 100 = Status.normal ∧
      classify 60 100 = Status.warning ∧
      classify 85 100 = Status.congested ∧
      classify 150 100 = Status.congested := by
  have hne : cap ≠ 0 := by omega
  refine ⟨fun h => ?_, fun h1 h2 => ?_, fun h => ?_,
    by norm_num [classify], by norm_num [classify],
    by norm_num [classify], by norm_num [classify]⟩
  · simp [classify, hne, h]
  · simp [classify, hne, h2, not_lt.mpr h1]
  · have h60 : ¬ (pr : ℚ) / (cap : ℚ) * 100 < 60 := by linarith
    have h85 : ¬ (pr : ℚ) / (cap : ℚ) * 100 < 85 := by linarith
    simp [classify, hne, h60, h85]

/-- Witness for C5 at the boundary inputs 59/100 and 85/100. -/
theorem classify_thresholds_witness :
    classify 59 100 = Status.normal ∧ classify 85 100 = Status.congested :=
  ⟨(classify_thresholds 59 100 (by norm_num)).2.2.2.1,
    (classify_thresholds 85 100 (by norm_num)).2.2.2.2.2.1⟩

/-- Under exact rational arithmetic the congestion-branch floor discards
nothing: for `cap < r`, `floor(r * (1 - (r - cap)/r)) = cap`. -/
lemma floor_overload_eq (r cap : ℕ) (h : cap < r) :
    ⌊(r : ℚ) * (1 - ((r - cap : ℕ) : ℚ) / (r : ℚ))⌋ = (cap : ℤ) := by
  have hr0 : (r : ℚ) ≠ 0 := Nat.cast_ne_zero.mpr (by omega)
  have hc : ((r - cap : ℕ) : ℚ) = (r : ℚ) - (cap : ℚ) := by
    rw [Nat.cast_sub h.le]
  have hval : (r : ℚ) * (1 - ((r : ℚ) - (cap : ℚ)) / (r : ℚ)) = (cap : ℚ) := by
    field_simp
  rw [hc, hval, Int.floor_natCast]

/-- Claim C10: on every overload tick the congestion-branch formulas
collapse exactly — the delivered amount equals `networkCapacity` and the
dropped amount equals `sendingRate - networkCapacity`; in particular with
`packetRate = 20, networkCapacity = 10, protocol = UDP`, every tick delivers
10 and drops 10, so after `n` ticks the counters are exactly
`delivered = 10n, dropped = 10n, sent = 20n`. -/
theorem overload_exact_collapse (cfg : Config) (t : ℕ) (s : SimState)
    (h : cfg.networkCapacity < sendingRate cfg s.tcpWindowSize) :
    ((simulateNetworkTraffic cfg t s).deliveredPackets
        = s.deliveredPackets + (cfg.networkCapacity : ℤ) ∧
      (simulateNetworkTraffic cfg t s).droppedPackets
        = s.droppedPackets
            + ((sendingRate cfg s.tcpWindowSize : ℤ)
                - (cfg.networkCapacity : ℤ))) ∧
    ∀ n : ℕ,
      (runTicks ⟨20, 10, Protocol.udp⟩ n).deliveredPackets = 10 * n ∧
        (runTicks ⟨20, 10, Protocol.udp⟩ n).droppedPackets = 10 * n ∧
        (runTicks ⟨20, 10, Protocol.udp⟩ n).sentPackets = 20 * n := by
  constructor
  · have hm := tick_overload cfg t s h
    have hf := floor_overload_eq (sendingRate cfg s.tcpWindowSize)
      cfg.networkCapacity h
    rw [hf] at hm
    exact ⟨hm.2.1, hm.2.2.1⟩
  · intro n
    induction n with
    | zero => refine ⟨rfl, rfl, rfl⟩
    | succ n ih =>
      rw [runTicks]
      have hsr : sendingRate ⟨20, 10, Protocol.udp⟩
          (runTicks ⟨20, 10, Protocol.udp⟩ n).tcpWindowSize = 20 := rfl
      have hm := tick_overload ⟨20, 10, Protocol.udp⟩ n
        (runTicks ⟨20, 10, Protocol.udp⟩ n) (by simp [hsr])
      rw [hsr] at hm
      have hf := floor_overload_eq 20 10 (by omega)
      simp only [show (⟨20, 10, Protocol.udp⟩ : Config).networkCapacity = 10
        from rfl] at hm
      rw [hf] at hm
      obtain ⟨h1, h2, h3, -⟩ := hm
      omega

/-- Witness for C10: a concrete overload tick (`packetRate = 20,
networkCapacity = 10, protocol = UDP`, window 1, sending rate 20 > 10)
delivers exactly the capacity. -/
theorem overload_exact_collapse_witness :
    (10 : ℕ) < sendingRate ⟨20, 10, Protocol.udp⟩ initialState.tcpWindowSize ∧
      (simulateNetworkTraffic ⟨20, 10, Protocol.udp⟩ 0
          initialState).deliveredPackets = 10 :=
  ⟨by decide,
    by
      have h := (overload_exact_collapse ⟨20, 10, Protocol.udp⟩ 0
        initialState (by decide)).1.1
      simpa [initialState] using h⟩

/-! ### Chart-buffer lemmas -/

/-- Lengths of the three chart arrays after one tick, in terms of the
pre-tick lengths (the eviction in `pushChart` is gated on the length of the
`time` array). -/
lemma tick_chart_lengths (cfg : Config) (t : ℕ) (s : SimState) :
    ((simulateNetworkTraffic cfg t s).chartTime.length =
        if 8 < s.chartTime.length + 1 then s.chartTime.length
        else s.chartTime.length + 1) ∧
      ((simulateNetworkTraffic cfg t s).chartThroughput.length =
        if 8 < s.chartTime.length + 1 then s.chartThroughput.length
        else s.chartThroughput.length + 1) ∧
      ((simulateNetworkTraffic cfg t s).chartLoss.length =
        if 8 < s.chartTime.length + 1 then s.chartLoss.length
        else s.chartLoss.length + 1) := by
  simp only [simulateNetworkTraffic, pushChart]
  by_cases hov : 0 < sendingRate cfg s.tcpWindowSize - cfg.networkCapacity <;>
    by_cases hl : 8 < s.chartTime.length + 1 <;>
      simp [hov, hl]

/-- After `n` ticks all three chart arrays have length `min n 8`. -/
lemma runTicks_chart_lengths (cfg : Config) (n : ℕ) :
    (runTicks cfg n).chartTime.length = min n 8 ∧
      (runTicks cfg n).chartThroughput.length = min n 8 ∧
      (runTicks cfg n).chartLoss.length = min n 8 := by
  induction n with
  | zero => exact ⟨rfl, rfl, rfl⟩
  | succ n ih =>
    obtain ⟨i1, i2, i3⟩ := ih
    obtain ⟨h1, h2, h3⟩ := tick_chart_lengths cfg n (runTicks cfg n)
    rw [runTicks]
    rw [h1, h2, h3, i1, i2, i3]
    refine ⟨?_, ?_, ?_⟩ <;> split_ifs <;> omega

/-- When the `time` and `throughput` arrays have equal length (as they do in
every reachable state), the tick updates the throughput array exactly by the
`chartPush` operation with the new sample. -/
lemma pushChart_throughput_eq (t : ℕ) (s : SimState)
    (h : s.chartTime.length = s.chartThroughput.length) :
    (pushChart t s).chartThroughput
      = chartPush s.chartThroughput
          (s.deliveredPackets - s.chartThroughput.getLast?.getD 0) := by
  simp only [pushChart, chartPush]
  rw [show (s.chartTime ++ [t]).length
      = (s.chartThroughput
          ++ [s.deliveredPackets - s.chartThroughput.getLast?.getD 0]).length
    by simp [h]]
  split <;> rfl

/-- Claim C6 evidence: with `packetRate = 10, networkCapacity = 15, UDP`,
10 packets are delivered per tick (`deliveredTotal` is 10, 20, 30, ...), yet
the third pushed throughput sample is
`deliveredPackets - (previous throughput sample) = 30 - 10 = 20`, not the
first difference `deliveredTotal(3) - deliveredTotal(2) = 30 - 20 = 10`
stated by the specification: the code subtracts the previous *sample*
(`chartData.throughput[length - 1]`), not the previous cumulative total. -/
theorem throughput_sample_bug :
    (runTicks ⟨10, 15, Protocol.udp⟩ 2).deliveredPackets = 20 ∧
      (runTicks ⟨10, 15, Protocol.udp⟩ 3).deliveredPackets = 30 ∧
      (runTicks ⟨10, 15, Protocol.udp⟩ 3).chartThroughput = [10, 10, 20] := by
  decide

/-- Claim C7: the chart buffer push keeps at most 8 samples (given at most 8
beforehand); pushing 9 samples into an empty buffer leaves exactly the last
8 in their original relative order (the oldest evicted); the tick's chart
update is exactly this push operation on the throughput array; and every
reachable throughput array has length at most 8. -/
theorem metrics_buffer_fifo :
    (∀ (l : List ℤ) (x : ℤ), l.length ≤ 8 → (chartPush l x).length ≤ 8) ∧
      (∀ a1 a2 a3 a4 a5 a6 a7 a8 a9 : ℤ,
        List.foldl chartPush [] [a1, a2, a3, a4, a5, a6, a7, a8, a9]
          = [a2, a3, a4, a5, a6, a7, a8, a9]) ∧
      (∀ (t : ℕ) (s : SimState),
        s.chartTime.length = s.chartThroughput.length →
          (pushChart t s).chartThroughput
            = chartPush s.chartThroughput
                (s.deliveredPackets - s.chartThroughput.getLast?.getD 0)) ∧
      (∀ (cfg : Config) (n : ℕ),
        (runTicks cfg n).chartThroughput.length ≤ 8) := by
  refine ⟨?_, ?_, fun t s h => pushChart_throughput_eq t s h, fun cfg n => ?_⟩
  · intro l x h
    simp only [chartPush]
    split <;> rename_i hc <;>
      simp only [List.length_drop, List.length_append, List.length_cons,
        List.length_nil] at hc ⊢ <;>
      omega
  · intro a1 a2 a3 a4 a5 a6 a7 a8 a9
    simp [chartPush]
  · have h := (runTicks_chart_lengths cfg n).2.1
    omega

/-- Witness for C7: a full buffer stays within capacity after a push, and
pushing the samples 1..9 into an empty buffer leaves 2..9. -/
theorem metrics_buffer_fifo_witness :
    (chartPush [1, 2, 3, 4, 5, 6, 7, 8] 9).length ≤ 8 ∧
      List.foldl chartPush [] [1, 2, 3, 4, 5, 6, 7, 8, 9]
        = [2, 3, 4, 5, 6, 7, 8, 9] :=
  ⟨metrics_buffer_fifo.1 [1, 2, 3, 4, 5, 6, 7, 8] 9 (by decide),
    metrics_buffer_fifo.2.1 1 2 3 4 5 6 7 8 9⟩

/-- Claim C8 counterexample: from a running state with `sentPackets = 5`,
calling `pauseSimulation` and then `startSimulation` yields
`sentPackets = 0`, not the pre-pause value 5 — `startSimulation`
unconditionally calls `resetNetworkStats()` when it (re)starts. -/
theorem pause_start_counterexample :
    (startSimulation (pauseSimulation
        ⟨5, 3, 2, 4, true, [0], [3], [2]⟩)).sentPackets = 0 ∧
      (⟨5, 3, 2, 4, true, [0], [3], [2]⟩ : SimState).sentPackets = 5 ∧
      (0 : ℤ) ≠ 5 := by
  decide

/-- Claim C8 (amended): `pauseSimulation` only clears the running flag and
preserves all counters, the window and the chart arrays; but
`startSimulation` after a pause zeroes the whole simulation state (it calls
`resetNetworkStats`), and `resetSimulation` likewise zeroes it; so among the
lifecycle operations both `start`-after-`pause` and `reset` restore the zero
state, and only `pause` preserves it. -/
theorem lifecycle_frame_amended (s : SimState) :
    (pauseSimulation s).sentPackets = s.sentPackets ∧
      (pauseSimulation s).deliveredPackets = s.deliveredPackets ∧
      (pauseSimulation s).droppedPackets = s.droppedPackets ∧
      (pauseSimulation s).tcpWindowSize = s.tcpWindowSize ∧
      (pauseSimulation s).chartTime = s.chartTime ∧
      (pauseSimulation s).chartThroughput = s.chartThroughput ∧
      (pauseSimulation s).chartLoss = s.chartLoss ∧
      (pauseSimulation s).isSimulationRunning = false ∧
      startSimulation (pauseSimulation s)
        = { sentPackets := 0, deliveredPackets := 0, droppedPackets := 0,
            tcpWindowSize := 1, isSimulationRunning := true,
            chartTime := [], chartThroughput := [], chartLoss := [] } ∧
      resetSimulation s
        = { sentPackets := 0, deliveredPackets := 0, droppedPackets := 0,
            tcpWindowSize := 1, isSimulationRunning := false,
            chartTime := [], chartThroughput := [], chartLoss := [] } :=
  ⟨rfl, rfl, rfl, rfl, rfl, rfl, rfl, rfl, rfl, rfl⟩

/-- Claim C9 counterexample: a configure call with `packetRate = 0` is not
rejected — it replaces the prior configuration — and `classify` with
`networkCapacity = 0` returns Congested rather than failing. -/
theorem invalid_config_counterexample :
    packetRateInput 0 ⟨10, 15⟩ = ⟨0, 15⟩ ∧
      packetRateInput 0 ⟨10, 15⟩ ≠ ⟨10, 15⟩ ∧
      classify 5 0 = Status.congested := by
  decide

/-- Claim C9 (amended): the configuration listeners perform no validation —
any parsed integer, including zero and negatives, is assigned to the
corresponding global — and `classify` is total rather than failing: with
`networkCapacity = 0` it returns Congested for every nonnegative
`packetRate` (the utilization is Infinity or NaN, for which both threshold
comparisons are false) and Normal for a negative `packetRate` (the
utilization is -Infinity, which is `< 60`); there is no InvalidInput
failure path. -/
theorem no_validation_amended (v pr : ℤ) (c : InputConfig) :
    packetRateInput v c = { c with packetRate := v } ∧
      networkCapacityInput v c = { c with networkCapacity := v } ∧
      (0 ≤ pr → classify pr 0 = Status.congested) ∧
      (pr < 0 → classify pr 0 = Status.normal) :=
  ⟨rfl, rfl,
    fun h => by simp [classify, not_lt.mpr h],
    fun h => by simp [classify, h]⟩

/-- Witness for the amended C9 at `packetRate = 5` and `packetRate = -5`
with `networkCapacity = 0`. -/
theorem no_validation_amended_witness :
    classify 5 0 = Status.congested ∧ classify (-5) 0 = Status.normal :=
  ⟨(no_validation_amended 0 5 ⟨10, 15⟩).2.2.1 (by norm_num),
    (no_validation_amended 0 (-5) ⟨10, 15⟩).2.2.2 (by norm_num)⟩

end Analyzer
